import Mathlib

/-!
Shallow embedding of the Alchemy rendering scaffold
(src/alchemy_framework/src/gpu.rs, wgpu 0.7 era) and verification of its
specification.  GPU handles (surface, device, queue, shader modules,
bind groups, buffers) are opaque identifiers; command recording is made
explicit as lists of recorded render-pass commands; the asynchronous
adapter/device acquisition of `State::new` is modelled by passing the
acquired handles as arguments; frame acquisition from the swap chain is
an environment input (`AcquireResult`).  Floating-point literals that
are only stored and compared (clear colors, clear depth) are modelled
as rationals.
-/

namespace Alchemy

/-- `winit::dpi::PhysicalSize<u32>`. -/
structure PhysicalSize where
  width : Nat
  height : Nat
deriving DecidableEq, Repr

/-- The slice of `wgpu::TextureFormat` used by the program. -/
inductive TextureFormat where
  | Bgra8UnormSrgb
  | Depth32Float
deriving DecidableEq, Repr

/-- The slice of `wgpu::TextureUsage` used by the program. -/
inductive TextureUsage where
  | RENDER_ATTACHMENT
deriving DecidableEq, Repr

/-- The slice of `wgpu::PresentMode` used by the program. -/
inductive PresentMode where
  | Fifo
deriving DecidableEq, Repr

/-- `const RENDERFORMAT` (gpu.rs line 8). -/
def RENDERFORMAT : TextureFormat := .Bgra8UnormSrgb

/-- `const SCUSAGE` (gpu.rs line 9). -/
def SCUSAGE : TextureUsage := .RENDER_ATTACHMENT

/-- `const SCPRESENT` (gpu.rs line 10). -/
def SCPRESENT : PresentMode := .Fifo

/-- `wgpu::SwapChainDescriptor`. -/
structure SwapChainDescriptor where
  usage : TextureUsage
  format : TextureFormat
  width : Nat
  height : Nat
  present_mode : PresentMode
deriving DecidableEq, Repr

/-- Opaque handle to a presentation surface. -/
abbrev Surface := Nat

/-- Opaque handle to a logical device. -/
abbrev Device := Nat

/-- Opaque handle to a command queue. -/
abbrev Queue := Nat

/-- Opaque handle to a bind-group layout. -/
abbrev BindGroupLayout := Nat

/-- Opaque handle to a bind group. -/
abbrev BindGroup := Nat

/-- Opaque handle to a GPU buffer. -/
abbrev Buffer := Nat

/-- A compiled shader module; identified by the SPIR-V blob it was built
from (`wgpu::include_spirv!`). -/
abbrev ShaderModule := String

/-- `device.create_shader_module(include_spirv!(path))`: the module is
determined by the shader binary it is compiled from. -/
def Device.create_shader_module (_device : Device) (spirv : String) : ShaderModule :=
  spirv

/-- A swap chain as built by `device.create_swap_chain(&surface, &sc_desc)`:
it records the device and surface it was built against and a snapshot of
the descriptor it was configured from. -/
structure SwapChain where
  device : Device
  surface : Surface
  desc : SwapChainDescriptor
deriving DecidableEq, Repr

/-- `wgpu::Device::create_swap_chain`. -/
def createSwapChain (device : Device) (surface : Surface) (desc : SwapChainDescriptor) : SwapChain :=
  { device := device, surface := surface, desc := desc }

/-- Modelled from the spec: `texture::Texture` (src file texture.rs is not
available; only its callers are).  The spec describes the depth buffer as
"an auxiliary image storing per-pixel depth" that is "sized to match" the
swap-chain configuration. -/
structure Texture where
  width : Nat
  height : Nat
  format : TextureFormat
  label : String
deriving DecidableEq, Repr

/-- Modelled from the spec: `texture::Texture::DEPTH_FORMAT`, the context's
depth format used both for the depth buffer and the pipeline's
depth-stencil state.  The standard 32-bit float depth format. -/
def Texture.DEPTH_FORMAT : TextureFormat := .Depth32Float

/-- Modelled from the spec: `texture::Texture::create_depth_texture`
(texture.rs is not available).  Per the spec, `create` "creates a depth
buffer sized to match" the swap-chain configuration and `resize`
"rebuilds the depth buffer to match", so the texture takes its
dimensions from `sc_desc` and has the depth format. -/
def Texture.create_depth_texture (_device : Device) (sc_desc : SwapChainDescriptor) (label : String) : Texture :=
  { width := sc_desc.width, height := sc_desc.height,
    format := Texture.DEPTH_FORMAT, label := label }

/-- A texture view: either the view of an acquired swap-chain frame, or the
view of a created texture (identified by the texture itself). -/
inductive TextureView where
  | frameView (id : Nat)
  | textureView (t : Texture)
deriving DecidableEq, Repr

/-- `texture.view` for a created texture. -/
def Texture.view (t : Texture) : TextureView :=
  .textureView t

/-- Modelled from the spec: `camera::GPUObject` (camera.rs is not
available).  Per the spec it is treated opaquely and exposes "a
bind-group layout, a bind group, a backing buffer, and a binding slot
index". -/
structure GPUObject where
  layout : BindGroupLayout
  bind_group : BindGroup
  buffer : Buffer
  binding : Nat
deriving DecidableEq, Repr

/-- `wgpu::VertexState`. -/
structure VertexState where
  module : ShaderModule
  entry_point : String
  buffers : List Nat
deriving DecidableEq, Repr

/-- `wgpu::BlendState` (wgpu 0.7: a factor/factor/operation triple; only
`REPLACE` is used, kept abstract as one constructor). -/
inductive BlendState where
  | REPLACE
deriving DecidableEq, Repr

/-- `wgpu::ColorWrite` (only `ALL` is used). -/
inductive ColorWrite where
  | ALL
deriving DecidableEq, Repr

/-- `wgpu::ColorTargetState` (wgpu 0.7 field names). -/
structure ColorTargetState where
  format : TextureFormat
  alpha_blend : BlendState
  color_blend : BlendState
  write_mask : ColorWrite
deriving DecidableEq, Repr

/-- `wgpu::FragmentState`. -/
structure FragmentState where
  module : ShaderModule
  entry_point : String
  targets : List ColorTargetState
deriving DecidableEq, Repr

/-- `wgpu::PrimitiveTopology` (only the used variant plus one alternative,
so that "triangle list" is a real choice). -/
inductive PrimitiveTopology where
  | TriangleList
  | TriangleStrip
deriving DecidableEq, Repr

/-- `wgpu::FrontFace`. -/
inductive FrontFace where
  | Ccw
  | Cw
deriving DecidableEq, Repr

/-- `wgpu::CullMode` (wgpu 0.7). -/
inductive CullMode where
  | culloff
  | Front
  | Back
deriving DecidableEq, Repr

/-- `wgpu::PolygonMode`. -/
inductive PolygonMode where
  | Fill
  | Line
  | Point
deriving DecidableEq, Repr

/-- `wgpu::PrimitiveState` (wgpu 0.7). -/
structure PrimitiveState where
  topology : PrimitiveTopology
  strip_index_format : Option Nat
  front_face : FrontFace
  cull_mode : CullMode
  polygon_mode : PolygonMode
deriving DecidableEq, Repr

/-- `wgpu::CompareFunction` (the used slice). -/
inductive CompareFunction where
  | Less
  | Always
deriving DecidableEq, Repr

/-- `wgpu::StencilOperation` (the slice needed for the default). -/
inductive StencilOperation where
  | Keep
deriving DecidableEq, Repr

/-- `wgpu::StencilFaceState`. -/
structure StencilFaceState where
  compare : CompareFunction
  fail_op : StencilOperation
  depth_fail_op : StencilOperation
  pass_op : StencilOperation
deriving DecidableEq, Repr

/-- `wgpu::StencilFaceState::IGNORE`. -/
def StencilFaceState.IGNORE : StencilFaceState :=
  { compare := .Always, fail_op := .Keep, depth_fail_op := .Keep, pass_op := .Keep }

/-- `wgpu::StencilState`. -/
structure StencilState where
  front : StencilFaceState
  back : StencilFaceState
  read_mask : Nat
  write_mask : Nat
deriving DecidableEq, Repr

/-- `wgpu::StencilState::default()`: both faces ignored, masks zero, i.e.
the stencil test is disabled (no stencil). -/
def StencilState.default : StencilState :=
  { front := .IGNORE, back := .IGNORE, read_mask := 0, write_mask := 0 }

/-- `wgpu::DepthBiasState` (constant/slope-scale/clamp). -/
structure DepthBiasState where
  constant : Int
  slope_scale : ℚ
  clamp : ℚ
deriving DecidableEq, Repr

/-- `wgpu::DepthBiasState::default()`: all zero. -/
def DepthBiasState.default : DepthBiasState :=
  { constant := 0, slope_scale := 0, clamp := 0 }

/-- `wgpu::DepthStencilState` (wgpu 0.7). -/
structure DepthStencilState where
  format : TextureFormat
  depth_write_enabled : Bool
  depth_compare : CompareFunction
  stencil : StencilState
  bias : DepthBiasState
  clamp_depth : Bool
deriving DecidableEq, Repr

/-- `wgpu::MultisampleState`. -/
structure MultisampleState where
  count : Nat
  mask : Nat
  alpha_to_coverage_enabled : Bool
deriving DecidableEq, Repr

/-- `wgpu::PipelineLayout` as built by `create_pipeline_layout`. -/
structure PipelineLayout where
  label : Option String
  bind_group_layouts : List BindGroupLayout
  push_constant_ranges : List Nat
deriving DecidableEq, Repr

/-- `wgpu::RenderPipeline` as built by `create_render_pipeline`: the full
descriptor it was created from. -/
structure RenderPipeline where
  label : Option String
  layout : Option PipelineLayout
  vertex : VertexState
  fragment : Option FragmentState
  primitive : PrimitiveState
  depth_stencil : Option DepthStencilState
  multisample : MultisampleState
deriving DecidableEq, Repr

/-- `wgpu::LoadOp`. -/
inductive LoadOp (α : Type) where
  | Clear (value : α)
  | Load
deriving DecidableEq, Repr

/-- `wgpu::Operations`. -/
structure Operations (α : Type) where
  load : LoadOp α
  store : Bool
deriving DecidableEq, Repr

/-- `wgpu::Color` (f64 components modelled as exactly stored rationals). -/
structure Color where
  r : ℚ
  g : ℚ
  b : ℚ
  a : ℚ
deriving DecidableEq, Repr

/-- `wgpu::RenderPassColorAttachmentDescriptor` (wgpu 0.7 name). -/
structure RenderPassColorAttachmentDescriptor where
  attachment : TextureView
  resolve_target : Option TextureView
  ops : Operations Color
deriving DecidableEq, Repr

/-- `wgpu::RenderPassDepthStencilAttachmentDescriptor` (wgpu 0.7 name). -/
structure RenderPassDepthStencilAttachmentDescriptor where
  attachment : TextureView
  depth_ops : Option (Operations ℚ)
  stencil_ops : Option (Operations Nat)
deriving DecidableEq, Repr

/-- A half-open `u32` range `lo..hi` as used by `RenderPass::draw`. -/
structure NatRange where
  lo : Nat
  hi : Nat
deriving DecidableEq, Repr

/-- A command recorded into a render pass.  Index-buffer binding and
indexed draws are representable so that "no index buffer" is a
meaningful statement about the recorded commands. -/
inductive RenderCommand where
  | set_pipeline (pipeline : RenderPipeline)
  | set_bind_group (index : Nat) (group : BindGroup) (offsets : List Nat)
  | set_index_buffer (buffer : Buffer)
  | draw (vertices : NatRange) (instances : NatRange)
  | draw_indexed (indices : NatRange) (base_vertex : Int) (instances : NatRange)
deriving DecidableEq, Repr

/-- A recorded render pass: its descriptor plus the commands recorded
into it. -/
structure RenderPassRecord where
  label : Option String
  color_attachments : List RenderPassColorAttachmentDescriptor
  depth_stencil_attachment : Option RenderPassDepthStencilAttachmentDescriptor
  commands : List RenderCommand
deriving DecidableEq, Repr

/-- A finished command buffer: the encoder label and the render passes
recorded through it. -/
structure CommandBuffer where
  label : Option String
  passes : List RenderPassRecord
deriving DecidableEq, Repr

/-- `BasicEffect` (gpu.rs lines 126-129). -/
structure BasicEffect where
  render_pipeline : RenderPipeline
  camera_obj : GPUObject
deriving DecidableEq, Repr

/-- `State` (gpu.rs lines 12-21).  The `swap_chain` field holds the swap
chain as last (re)built; `effect` is the single optional effect slot. -/
structure State where
  surface : Surface
  device : Device
  queue : Queue
  sc_desc : SwapChainDescriptor
  swap_chain : SwapChain
  size : PhysicalSize
  depth_texture : Texture
  effect : Option BasicEffect
deriving DecidableEq, Repr

/-- `winit::window::Window`, reduced to what `State::new` reads from it. -/
structure Window where
  inner_size : PhysicalSize
deriving DecidableEq, Repr

/-- `State::new` (gpu.rs lines 24-57).  The asynchronous backend
acquisition (`create_surface`, `request_adapter`, `request_device`) is
modelled by taking the acquired surface/device/queue handles as
arguments; a failed acquisition is a fatal `unwrap` before any `State`
exists, so `new` itself is total in the acquired handles. -/
def State.new (window : Window) (surface : Surface) (device : Device) (queue : Queue) : State :=
  let size := window.inner_size
  let sc_desc : SwapChainDescriptor :=
    { usage := SCUSAGE, format := RENDERFORMAT,
      width := size.width, height := size.height, present_mode := SCPRESENT }
  let swap_chain := createSwapChain device surface sc_desc
  let depth_texture := Texture.create_depth_texture device sc_desc "depth_texture"
  { surface := surface, device := device, queue := queue,
    sc_desc := sc_desc, swap_chain := swap_chain, size := size,
    depth_texture := depth_texture, effect := none }

/-- `State::add_effect` (gpu.rs lines 59-61). -/
def State.add_effect (s : State) (effect : BasicEffect) : State :=
  { s with effect := some effect }

/-- `State::get_effect` (gpu.rs lines 63-65): `self.effect.as_ref().unwrap()`.
The `unwrap` panic on an empty slot is modelled by the `none` result. -/
def State.get_effect (s : State) : Option BasicEffect :=
  s.effect

/-- `State::resize` (gpu.rs lines 67-73). -/
def State.resize (s : State) (new_size : PhysicalSize) : State :=
  let sc_desc : SwapChainDescriptor :=
    { s.sc_desc with width := new_size.width, height := new_size.height }
  { s with
    size := new_size,
    sc_desc := sc_desc,
    swap_chain := createSwapChain s.device s.surface sc_desc,
    depth_texture := Texture.create_depth_texture s.device sc_desc "depth_texture" }

/-- GPU-side buffer contents: the byte list stored in each buffer. -/
abbrev BufferStore := Buffer → List Nat

/-- `wgpu::Queue::write_buffer(buffer, offset, data)`: schedules a write of
exactly `data.length` bytes at `offset` into `buffer`, leaving all other
bytes and all other buffers unchanged (the documented wgpu contract). -/
def queueWriteBuffer (store : BufferStore) (buffer : Buffer) (offset : Nat) (data : List Nat) : BufferStore :=
  fun b =>
    if b = buffer then
      (store b).take offset ++ data ++ (store b).drop (offset + data.length)
    else
      store b

/-- `State::write_buffer` (gpu.rs lines 75-77): writes the POD payload's
bytes at offset 0 via the queue.  Takes `&mut self` but touches no field,
so the state is returned unchanged alongside the updated GPU store. -/
def State.write_buffer (s : State) (store : BufferStore) (buffer : Buffer) (bytes : List Nat) : State × BufferStore :=
  (s, queueWriteBuffer store buffer 0 bytes)

/-- `wgpu::SwapChainError` (wgpu 0.7). -/
inductive SwapChainError where
  | Timeout
  | Outdated
  | Lost
  | OutOfMemory
deriving DecidableEq, Repr

/-- The acquired frame: `get_current_frame()?.output`, of which only the
texture view is used. -/
structure Frame where
  view : TextureView
deriving DecidableEq, Repr

/-- Outcome of `swap_chain.get_current_frame()`, an environment input to
`render`. -/
inductive AcquireResult where
  | ok (frame : Frame)
  | err (e : SwapChainError)
deriving DecidableEq, Repr

/-- How a call to `render` terminates: normal success, a propagated
`SwapChainError`, or a panic with its diagnostic message. -/
inductive RenderOutcome where
  | ok
  | err (e : SwapChainError)
  | panicked (msg : String)
deriving DecidableEq, Repr

/-- The full observable result of `State::render`: the state after the
call, the command buffers submitted to the queue during the call, and
how the call terminated. -/
structure RenderResult where
  state : State
  submitted : List CommandBuffer
  outcome : RenderOutcome
deriving DecidableEq, Repr

/-- `BasicEffect::render` (gpu.rs lines 191-195): the commands it records
into the caller-provided render pass. -/
def BasicEffect.render (e : BasicEffect) : List RenderCommand :=
  [ .set_pipeline e.render_pipeline,
    .set_bind_group e.camera_obj.binding e.camera_obj.bind_group [],
    .draw { lo := 0, hi := 3 } { lo := 0, hi := 1 } ]

/-- `State::render` (gpu.rs lines 79-123).  `?` on frame acquisition
propagates the error before any encoder exists; otherwise one render
pass is begun with the literal clear operations, recording is delegated
to the installed effect (panicking when the slot is empty, before any
submission), and the finished encoder is submitted once. -/
def State.render (s : State) (acq : AcquireResult) : RenderResult :=
  match acq with
  | .err e => { state := s, submitted := [], outcome := .err e }
  | .ok frame =>
    match s.effect with
    | none =>
      { state := s, submitted := [],
        outcome := .panicked "The Render pipeline was not initialized, please include init_pipleine somehwere in the code" }
    | some effect =>
      let pass : RenderPassRecord :=
        { label := some "Render Pass",
          color_attachments :=
            [ { attachment := frame.view,
                resolve_target := none,
                ops :=
                  { load := .Clear { r := 1/10, g := 2/10, b := 3/10, a := 1 },
                    store := true } } ],
          depth_stencil_attachment :=
            some
              { attachment := s.depth_texture.view,
                depth_ops := some { load := .Clear 1, store := true },
                stencil_ops := none },
          commands := effect.render }
      { state := s,
        submitted := [ { label := some "Render Encoder", passes := [pass] } ],
        outcome := .ok }

/-- `BasicEffect::new` (gpu.rs lines 132-189): shader modules from the two
SPIR-V blobs, a layout referencing exactly the camera object's
bind-group layout, and the fixed pipeline descriptor. -/
def BasicEffect.new (gpu : State) (camera_obj : GPUObject) : BasicEffect :=
  let vs_module := Device.create_shader_module gpu.device "shader.vert.spv"
  let fs_module := Device.create_shader_module gpu.device "shader.frag.spv"
  let render_pipeline_layout : PipelineLayout :=
    { label := some "Render Pipeline Layout",
      bind_group_layouts := [camera_obj.layout],
      push_constant_ranges := [] }
  let render_pipeline : RenderPipeline :=
    { label := some "Render Pipeline",
      layout := some render_pipeline_layout,
      vertex :=
        { module := vs_module, entry_point := "main", buffers := [] },
      fragment :=
        some
          { module := fs_module, entry_point := "main",
            targets :=
              [ { format := gpu.sc_desc.format,
                  alpha_blend := .REPLACE,
                  color_blend := .REPLACE,
                  write_mask := .ALL } ] },
      primitive :=
        { topology := .TriangleList,
          strip_index_format := none,
          front_face := .Ccw,
          cull_mode := .Back,
          polygon_mode := .Fill },
      depth_stencil :=
        some
          { format := Texture.DEPTH_FORMAT,
            depth_write_enabled := true,
            depth_compare := .Less,
            stencil := StencilState.default,
            bias := DepthBiasState.default,
            clamp_depth := false },
      multisample :=
        { count := 1, mask := 2 ^ 64 - 1, alpha_to_coverage_enabled := false } }
  { render_pipeline := render_pipeline, camera_obj := camera_obj }

/-- `BasicEffect::write_buffer` (gpu.rs lines 197-199). -/
def BasicEffect.write_buffer (_e : BasicEffect) (gpu : State) (store : BufferStore) (buffer : Buffer) (bytes : List Nat) : State × BufferStore :=
  (gpu, queueWriteBuffer store buffer 0 bytes)

/-- `BasicEffect::write_camera_buffer` (gpu.rs lines 201-203): writes to
the camera object's backing buffer at offset 0. -/
def BasicEffect.write_camera_buffer (e : BasicEffect) (gpu : State) (store : BufferStore) (bytes : List Nat) : State × BufferStore :=
  (gpu, queueWriteBuffer store e.camera_obj.buffer 0 bytes)

/-- The depth/swap-chain dimension invariant of claim C3. -/
def depthInv (s : State) : Prop :=
  s.depth_texture.width = s.sc_desc.width ∧ s.depth_texture.height = s.sc_desc.height

/-- Helper: `render` returns its input state unchanged on every path. -/
theorem render_state_fix (s : State) (acq : AcquireResult) : (s.render acq).state = s := by
  cases acq with
  | err e => rfl
  | ok f =>
    cases h : s.effect with
    | none => simp [State.render, h]
    | some effect => simp [State.render, h]

/-- A sample 800 by 600 window, used by witnesses. -/
def sampleWindow : Window :=
  { inner_size := { width := 800, height := 600 } }

/-- A sample camera resource, used by witnesses. -/
def sampleCamera : GPUObject :=
  { layout := 10, bind_group := 11, buffer := 12, binding := 0 }

/-- A freshly created sample context (no effect installed yet). -/
def sampleState : State :=
  State.new sampleWindow 0 1 2

/-- A sample effect built against the sample context. -/
def sampleEffect : BasicEffect :=
  BasicEffect.new sampleState sampleCamera

/-- The sample context with the sample effect installed. -/
def sampleReady : State :=
  sampleState.add_effect sampleEffect

/-- A sample acquired frame. -/
def sampleFrame : Frame :=
  { view := .frameView 0 }

/-- A sample GPU buffer store: every buffer holds four zero bytes. -/
def sampleStore : BufferStore :=
  fun _ => [0, 0, 0, 0]

/-- C1: for every `State` with an installed effect, when frame acquisition
succeeds `render` records exactly one render pass clearing the color
attachment to (0.1, 0.2, 0.3, 1.0) and the depth attachment to 1.0 with
no stencil operations, issues exactly one draw of vertices 0..3 and
instances 0..1 with no index buffer, submits exactly one command buffer
to the queue, and returns success. -/
theorem C1_render_success (s : State) (e : BasicEffect) (f : Frame)
    (h : s.effect = some e) :
    s.render (.ok f) =
      { state := s,
        submitted :=
          [ { label := some "Render Encoder",
              passes :=
                [ { label := some "Render Pass",
                    color_attachments :=
                      [ { attachment := f.view,
                          resolve_target := none,
                          ops :=
                            { load := .Clear { r := 1/10, g := 2/10, b := 3/10, a := 1 },
                              store := true } } ],
                    depth_stencil_attachment :=
                      some
                        { attachment := s.depth_texture.view,
                          depth_ops := some { load := .Clear 1, store := true },
                          stencil_ops := none },
                    commands :=
                      [ .set_pipeline e.render_pipeline,
                        .set_bind_group e.camera_obj.binding e.camera_obj.bind_group [],
                        .draw { lo := 0, hi := 3 } { lo := 0, hi := 1 } ] } ] } ],
        outcome := .ok } := by
  simp [State.render, h, BasicEffect.render]

/-- Witness for C1 at the sample ready context and sample frame. -/
theorem C1_witness :
    sampleReady.render (.ok sampleFrame) =
      { state := sampleReady,
        submitted :=
          [ { label := some "Render Encoder",
              passes :=
                [ { label := some "Render Pass",
                    color_attachments :=
                      [ { attachment := sampleFrame.view,
                          resolve_target := none,
                          ops :=
                            { load := .Clear { r := 1/10, g := 2/10, b := 3/10, a := 1 },
                              store := true } } ],
                    depth_stencil_attachment :=
                      some
                        { attachment := sampleReady.depth_texture.view,
                          depth_ops := some { load := .Clear 1, store := true },
                          stencil_ops := none },
                    commands :=
                      [ .set_pipeline sampleEffect.render_pipeline,
                        .set_bind_group sampleEffect.camera_obj.binding
                          sampleEffect.camera_obj.bind_group [],
                        .draw { lo := 0, hi := 3 } { lo := 0, hi := 1 } ] } ] } ],
        outcome := .ok } :=
  C1_render_success sampleReady sampleEffect sampleFrame rfl

/-- C2: for every `State`, when frame acquisition fails `render` returns
exactly the propagated presentation error, records no render pass,
submits nothing to the queue, leaves the `State` unchanged, and performs
no internal retry. -/
theorem C2_render_acquire_failure (s : State) (e : SwapChainError) :
    s.render (.err e) = { state := s, submitted := [], outcome := .err e } :=
  rfl

/-- C3: after `State::new` the depth texture's dimensions equal the
swap-chain descriptor's width and height, and this invariant is
preserved by every state-changing operation (`add_effect`, `resize`,
`write_buffer`, `render`), hence never observable as violated. -/
theorem C3_depth_invariant :
    (∀ (w : Window) (su de qu : Nat), depthInv (State.new w su de qu)) ∧
    (∀ (s : State) (e : BasicEffect), depthInv s → depthInv (s.add_effect e)) ∧
    (∀ (s : State) (ns : PhysicalSize), depthInv (s.resize ns)) ∧
    (∀ (s : State) (st : BufferStore) (b : Buffer) (bytes : List Nat),
      depthInv s → depthInv (s.write_buffer st b bytes).1) ∧
    (∀ (s : State) (acq : AcquireResult), depthInv s → depthInv (s.render acq).state) := by
  refine ⟨fun w su de qu => ⟨rfl, rfl⟩,
          fun s e h => h,
          fun s ns => ⟨rfl, rfl⟩,
          fun s st b bytes h => h,
          fun s acq h => ?_⟩
  rw [render_state_fix]
  exact h

/-- Witness for C3: the invariant at concrete create/resize/render calls. -/
theorem C3_witness :
    depthInv (sampleReady.resize { width := 1024, height := 768 }) ∧
    depthInv ((sampleState.render (.err .Lost)).state) :=
  ⟨C3_depth_invariant.2.2.1 sampleReady { width := 1024, height := 768 },
   C3_depth_invariant.2.2.2.2 sampleState (.err .Lost) ⟨rfl, rfl⟩⟩

/-- C4: after every `resize (w, h)` call, from any prior state, the
swap-chain descriptor's width and height, the stored size, and the depth
texture's dimensions all equal the supplied size; the swap chain is
rebuilt against the surface from the new configuration and the depth
buffer is rebuilt to match it. -/
theorem C4_resize_dims (s : State) (ns : PhysicalSize) :
    (s.resize ns).sc_desc.width = ns.width ∧
    (s.resize ns).sc_desc.height = ns.height ∧
    (s.resize ns).size = ns ∧
    (s.resize ns).depth_texture.width = ns.width ∧
    (s.resize ns).depth_texture.height = ns.height ∧
    (s.resize ns).swap_chain = createSwapChain s.device s.surface (s.resize ns).sc_desc ∧
    (s.resize ns).depth_texture =
      Texture.create_depth_texture s.device (s.resize ns).sc_desc "depth_texture" :=
  ⟨rfl, rfl, rfl, rfl, rfl, rfl, rfl⟩

/-- C5: `add_effect e` followed immediately by `get_effect` returns
exactly `e`, and `add_effect` replaces any previously installed effect
unconditionally (it is a total function setting the slot to `some e`). -/
theorem C5_add_get_effect (s : State) (e : BasicEffect) :
    (s.add_effect e).get_effect = some e ∧ (s.add_effect e).effect = some e :=
  ⟨rfl, rfl⟩

/-- C6: with no installed effect, `get_effect` has no value to return
(the `unwrap` panic, modelled by `none`), and `render` never returns
success: on a successfully acquired frame it panics with the source's
diagnostic message, and on every acquisition outcome its result is not
`ok`. -/
theorem C6_no_effect_fatal (s : State) (h : s.effect = none) :
    s.get_effect = none ∧
    (∀ f : Frame,
      (s.render (.ok f)).outcome =
        .panicked "The Render pipeline was not initialized, please include init_pipleine somehwere in the code") ∧
    (∀ acq : AcquireResult, (s.render acq).outcome ≠ .ok) := by
  refine ⟨h, fun f => by simp [State.render, h], fun acq => ?_⟩
  cases acq with
  | err e => simp [State.render]
  | ok f => simp [State.render, h]

/-- Witness for C6 at the freshly created sample context. -/
theorem C6_witness :
    sampleState.get_effect = none ∧
    (sampleState.render (.ok sampleFrame)).outcome =
      .panicked "The Render pipeline was not initialized, please include init_pipleine somehwere in the code" :=
  ⟨(C6_no_effect_fatal sampleState rfl).1,
   (C6_no_effect_fatal sampleState rfl).2.1 sampleFrame⟩

/-- C7: `write_buffer` (and `write_camera_buffer` on the camera object's
backing buffer) writes exactly the payload's bytes at offset 0 of the
target buffer, overwriting prior contents there, leaving bytes beyond
the payload untouched and every other buffer unchanged, with no
mutation of the `State`. -/
theorem C7_write_buffer (s : State) (store : BufferStore) (buf : Buffer)
    (bytes : List Nat) (e : BasicEffect) :
    ((s.write_buffer store buf bytes).2 buf = bytes ++ (store buf).drop bytes.length) ∧
    (((s.write_buffer store buf bytes).2 buf).take bytes.length = bytes) ∧
    (((s.write_buffer store buf bytes).2 buf).drop bytes.length = (store buf).drop bytes.length) ∧
    (∀ b : Buffer, b ≠ buf → (s.write_buffer store buf bytes).2 b = store b) ∧
    ((s.write_buffer store buf bytes).1 = s) ∧
    ((e.write_camera_buffer s store bytes).2 e.camera_obj.buffer =
      bytes ++ (store e.camera_obj.buffer).drop bytes.length) ∧
    (∀ b : Buffer, b ≠ e.camera_obj.buffer →
      (e.write_camera_buffer s store bytes).2 b = store b) := by
  refine ⟨?_, ?_, ?_, ?_, rfl, ?_, ?_⟩
  · simp [State.write_buffer, queueWriteBuffer]
  · simp [State.write_buffer, queueWriteBuffer, List.take_left]
  · simp [State.write_buffer, queueWriteBuffer, List.drop_left]
  · intro b hb
    simp [State.write_buffer, queueWriteBuffer, hb]
  · simp [BasicEffect.write_camera_buffer, queueWriteBuffer]
  · intro b hb
    simp [BasicEffect.write_camera_buffer, queueWriteBuffer, hb]

/-- Witness for C7: two bytes written into buffer 5 of the sample store
replace its first two bytes and leave buffer 3 unchanged. -/
theorem C7_witness :
    (sampleState.write_buffer sampleStore 5 [7, 8]).2 5 = [7, 8, 0, 0] ∧
    (sampleState.write_buffer sampleStore 5 [7, 8]).2 3 = [0, 0, 0, 0] :=
  ⟨(C7_write_buffer sampleState sampleStore 5 [7, 8] sampleEffect).1,
   (C7_write_buffer sampleState sampleStore 5 [7, 8] sampleEffect).2.2.2.1 3 (by decide)⟩

/-- C8: `BasicEffect::new` builds a pipeline with no vertex-buffer input,
triangle-list topology, counter-clockwise front face, back-face
culling, solid fill, depth test enabled with less comparison against
the depth format, default (no) stencil, no multisampling, a single
color target matching the context's current swap-chain format, a
layout referencing exactly the camera object's bind-group layout, and
shader entry points named main. -/
theorem C8_pipeline_config (gpu : State) (cam : GPUObject) :
    ((BasicEffect.new gpu cam).render_pipeline.vertex.buffers = []) ∧
    ((BasicEffect.new gpu cam).render_pipeline.vertex.entry_point = "main") ∧
    ((BasicEffect.new gpu cam).render_pipeline.primitive =
      { topology := .TriangleList, strip_index_format := none,
        front_face := .Ccw, cull_mode := .Back, polygon_mode := .Fill }) ∧
    ((BasicEffect.new gpu cam).render_pipeline.depth_stencil =
      some
        { format := Texture.DEPTH_FORMAT, depth_write_enabled := true,
          depth_compare := .Less, stencil := StencilState.default,
          bias := DepthBiasState.default, clamp_depth := false }) ∧
    ((BasicEffect.new gpu cam).render_pipeline.multisample.count = 1) ∧
    ((BasicEffect.new gpu cam).render_pipeline.fragment =
      some
        { module := "shader.frag.spv", entry_point := "main",
          targets :=
            [ { format := gpu.sc_desc.format, alpha_blend := .REPLACE,
                color_blend := .REPLACE, write_mask := .ALL } ] }) ∧
    ((BasicEffect.new gpu cam).render_pipeline.layout =
      some
        { label := some "Render Pipeline Layout",
          bind_group_layouts := [cam.layout], push_constant_ranges := [] }) :=
  ⟨rfl, rfl, rfl, rfl, rfl, rfl, rfl⟩

/-- C9: for a `State` with an installed effect, `resize` leaves the effect
slot holding the same effect and leaves the device, queue and surface
handles untouched. -/
theorem C9_resize_effect_untouched (s : State) (ns : PhysicalSize) (e : BasicEffect)
    (h : s.effect = some e) :
    (s.resize ns).effect = some e ∧
    (s.resize ns).device = s.device ∧
    (s.resize ns).queue = s.queue ∧
    (s.resize ns).surface = s.surface :=
  ⟨h, rfl, rfl, rfl⟩

/-- Witness for C9 at the sample ready context resized to 1024 by 768. -/
theorem C9_witness :
    (sampleReady.resize { width := 1024, height := 768 }).effect = some sampleEffect ∧
    (sampleReady.resize { width := 1024, height := 768 }).device = sampleReady.device ∧
    (sampleReady.resize { width := 1024, height := 768 }).queue = sampleReady.queue ∧
    (sampleReady.resize { width := 1024, height := 768 }).surface = sampleReady.surface :=
  C9_resize_effect_untouched sampleReady { width := 1024, height := 768 } sampleEffect rfl

/-- C10: `render` never mutates any field of the `State` — the state after
the call equals the state before it, on the success path, the
acquisition-failure path and the missing-effect path alike. -/
theorem C10_render_leaves_state (s : State) (acq : AcquireResult) :
    (s.render acq).state = s :=
  render_state_fix s acq

end Alchemy
